import Mathlib

/-!
Shallow embedding of the queue-selection, capacity-fitting and status-tracking
logic of the `volcengine_kit` client library, together with proofs of the
spec's claims about it.

Machine integers are modelled as `Int` (Python integers are unbounded, and
vacancies `total - allocated` can be negative).  Python dicts keyed by strings
are modelled as association lists (`List (String × _)`), dict indexing as
`List.lookup`.  Remote calls and Python exceptions are modelled with `Except`.
-/

namespace VolcengineKit

/-- Decidable equality of `Except` results, so that witness theorems can be
settled by `decide`. -/
instance {ε α : Type} [DecidableEq ε] [DecidableEq α] :
    DecidableEq (Except ε α) := fun x y =>
  match x, y with
  | .ok a, .ok b =>
    if h : a = b then .isTrue (by rw [h])
    else .isFalse (by intro hc; injection hc; contradiction)
  | .error a, .error b =>
    if h : a = b then .isTrue (by rw [h])
    else .isFalse (by intro hc; injection hc; contradiction)
  | .ok _, .error _ => .isFalse (fun h => Except.noConfusion h)
  | .error _, .ok _ => .isFalse (fun h => Except.noConfusion h)

/-- Embeds `QuotaItemModel` from `data/_receive.py`: CPU/memory/GPU quota of a
resource queue.  `GPUResources` is a dict from GPU type name to count. -/
structure QuotaItemModel where
  VCPU : Int
  Memory : Int
  GPUResources : List (String × Int)
  RdmaEniCount : Int
deriving DecidableEq

/-- Embeds `VolumeItemModel` from `data/_receive.py`. -/
structure VolumeItemModel where
  Id : String
  Num : Int
  ZoneId : String
  Name : String
deriving DecidableEq

/-- Embeds `FlavorModel` from `data/_receive.py`.  The source field `Type`
(a literal of '通用型', '计算型', '内存型', 'GPU型', '高性能计算GPU型') is
renamed `Type_` because `Type` is a Lean keyword; it stays a string compared
against those literals, exactly as the source does. -/
structure FlavorModel where
  Name : String
  Id : String
  Type_ : String
  Deprecated : Bool
  SupportVolumeTypeId : String
  vCPU : Int
  Memory : Int
  GPUType : String
  GPUMemory : Int
  GPUNum : Int
  MaxSlicesPerGPU : Int
  EniCount : Int
  NetQuota : String
deriving DecidableEq

/-- Embeds the `FlavorsByZone = Dict[str, Dict[str, FlavorModel]]` alias:
zone id → (flavor id → flavor). -/
def FlavorsByZone := List (String × List (String × FlavorModel))

/-- Embeds `GetResourceQueueResultModel` from `data/_receive.py`. -/
structure GetResourceQueueResultModel where
  Id : String
  Name : String
  Description : String
  ClusterId : String
  ZoneId : String
  DevZoneId : String
  State : String
  Role : String
  ResourceGroupId : String
  CapableFlavorTypes : String
  Shareable : Bool
  SupportMGPU : Bool
  QuotaCapability : QuotaItemModel
  QuotaAllocated : QuotaItemModel
  VolumeCapability : List VolumeItemModel
  VolumeAllocated : List VolumeItemModel
deriving DecidableEq

namespace GetResourceQueueResultModel

/-- `total_cpu` property. -/
def total_cpu (q : GetResourceQueueResultModel) : Int :=
  q.QuotaCapability.VCPU

/-- `allocated_cpu` property. -/
def allocated_cpu (q : GetResourceQueueResultModel) : Int :=
  q.QuotaAllocated.VCPU

/-- `vacant_cpu` property. -/
def vacant_cpu (q : GetResourceQueueResultModel) : Int :=
  q.total_cpu - q.allocated_cpu

/-- `total_memory` property. -/
def total_memory (q : GetResourceQueueResultModel) : Int :=
  q.QuotaCapability.Memory

/-- `allocated_memory` property. -/
def allocated_memory (q : GetResourceQueueResultModel) : Int :=
  q.QuotaAllocated.Memory

/-- `vacant_memory` property. -/
def vacant_memory (q : GetResourceQueueResultModel) : Int :=
  q.total_memory - q.allocated_memory

/-- `total_gpu`: `self.QuotaCapability.GPUResources.get(type, 0)`. -/
def total_gpu (q : GetResourceQueueResultModel) (type_ : String) : Int :=
  (q.QuotaCapability.GPUResources.lookup type_).getD 0

/-- `allocated_gpu`: `self.QuotaAllocated.GPUResources.get(type, 0)`. -/
def allocated_gpu (q : GetResourceQueueResultModel) (type_ : String) : Int :=
  (q.QuotaAllocated.GPUResources.lookup type_).getD 0

/-- `vacant_gpu`. -/
def vacant_gpu (q : GetResourceQueueResultModel) (type_ : String) : Int :=
  q.total_gpu type_ - q.allocated_gpu type_

/-- `vacant_volume` property: sum of capability `Num`s minus sum of
allocated `Num`s. -/
def vacant_volume (q : GetResourceQueueResultModel) : Int :=
  (q.VolumeCapability.map VolumeItemModel.Num).sum
    - (q.VolumeAllocated.map VolumeItemModel.Num).sum

/-- `fit_flavor`: check if the total capacity of the queue can hold the
provided flavor.  '高性能计算GPU型' flavors are rejected outright. -/
def fit_flavor (q : GetResourceQueueResultModel) (flavor : FlavorModel) : Bool :=
  if flavor.Type_ == "高性能计算GPU型" then
    false
  else
    let cpu_ok := decide (q.total_cpu ≥ flavor.vCPU)
    let memory_ok := decide (q.total_memory ≥ flavor.Memory)
    let gpu_ok :=
      if flavor.Type_ == "GPU型" then
        decide (q.total_gpu flavor.GPUType ≥ flavor.GPUNum)
      else
        true
    cpu_ok && memory_ok && gpu_ok

/-- `is_vacant_for`: check if vacant resources in the queue allow the provided
flavor, keeping the given cpu/memory buffers free and at least `volume_buffer`
free storage volumes.  The Python defaults are cpu 0, memory 0, volume 5. -/
def is_vacant_for (q : GetResourceQueueResultModel) (flavor : FlavorModel)
    (cpu_buffer memory_buffer volume_buffer : Int) : Bool :=
  if flavor.Type_ == "高性能计算GPU型" then
    false
  else
    let gpu_ok :=
      if flavor.Type_ == "GPU型" then
        decide (q.vacant_gpu flavor.GPUType ≥ flavor.GPUNum)
      else
        true
    let cpu_ok := decide (q.vacant_cpu ≥ flavor.vCPU + cpu_buffer)
    let memory_ok := decide (q.vacant_memory ≥ flavor.Memory + memory_buffer)
    let volume_ok := decide (q.vacant_volume ≥ volume_buffer)
    gpu_ok && cpu_ok && memory_ok && volume_ok

end GetResourceQueueResultModel

/-! ## Queue matcher (`client.py`, `VolcMLPlatformClient._find_optimal_queue`) -/

/-- The Python exceptions that can arise while evaluating one candidate queue
in `_find_optimal_queue` (`client.py`): the buffer `TypeError`, the `KeyError`
of `flavors_by_zone[q.ZoneId]`, the three `ValueError`s of `is_queue_vacant`,
and any error raised by `VolcMLPlatformService.get_resource_queue`. -/
inductive QueueErr where
  /-- `TypeError` raised when a resource buffer is negative. -/
  | negativeBuffer : QueueErr
  /-- `KeyError` from `flavors_by_zone[q.ZoneId]` when the zone is unknown. -/
  | zoneKeyError (zoneId : String) : QueueErr
  /-- `ValueError`: flavor not offered in the zone of the queue. -/
  | flavorNotInZone (flavorId zoneId queueId : String) : QueueErr
  /-- `ValueError`: the flavor is deprecated. -/
  | deprecatedFlavor (flavorId : String) : QueueErr
  /-- `ValueError`: the queue's total capacity does not fit the flavor. -/
  | doesNotFit (queueId flavorId : String) : QueueErr
  /-- Any exception raised by `get_resource_queue` (remote failure, unknown
  queue, invalid role or state, ...). -/
  | serviceError (msg : String) : QueueErr
deriving DecidableEq

/-- Embeds the inner closure `is_queue_vacant` of `_find_optimal_queue`:
look up the queue's zone in `flavors_by_zone`, look up the flavor id there,
raise on a deprecated flavor or a queue that does not fit it, and otherwise
return `is_vacant_for` with the given buffers. -/
def is_queue_vacant (flavors_by_zone : FlavorsByZone) (flavor_id : String)
    (cpu_buffer memory_buffer volume_buffer : Int)
    (q : GetResourceQueueResultModel) : Except QueueErr Bool :=
  match List.lookup q.ZoneId flavors_by_zone with
  | none => .error (.zoneKeyError q.ZoneId)
  | some zone_flavors =>
    match List.lookup flavor_id zone_flavors with
    | none => .error (.flavorNotInZone flavor_id q.ZoneId q.Id)
    | some flavor =>
      if flavor.Deprecated then
        .error (.deprecatedFlavor flavor.Id)
      else if !(q.fit_flavor flavor) then
        .error (.doesNotFit q.Id flavor.Id)
      else
        .ok (q.is_vacant_for flavor cpu_buffer memory_buffer volume_buffer)

/-- One iteration of the backup loop body of `_find_optimal_queue`: fetch the
backup queue from the service, then evaluate `is_queue_vacant` on it.  Either
step may raise (and the loop will swallow the error). -/
def backup_check (getQueue : String → Except QueueErr GetResourceQueueResultModel)
    (flavors_by_zone : FlavorsByZone) (flavor_id : String)
    (cpu_buffer memory_buffer volume_buffer : Int)
    (qid : String) : Except QueueErr (GetResourceQueueResultModel × Bool) :=
  match getQueue qid with
  | .error e => .error e
  | .ok backup_q =>
    match is_queue_vacant flavors_by_zone flavor_id
        cpu_buffer memory_buffer volume_buffer backup_q with
    | .error e => .error e
    | .ok backup_q_vacant => .ok (backup_q, backup_q_vacant)

/-- The backup loop of `_find_optimal_queue`: walk the backup queue ids in
order; a backup whose evaluation raises is logged and skipped, the first one
that evaluates to vacant is returned.  Also returns the list of backup ids that
were consulted (a `get_resource_queue` call was made for them), in order. -/
def find_backup (getQueue : String → Except QueueErr GetResourceQueueResultModel)
    (flavors_by_zone : FlavorsByZone) (flavor_id : String)
    (cpu_buffer memory_buffer volume_buffer : Int) :
    List String → Option GetResourceQueueResultModel × List String
  | [] => (none, [])
  | qid :: rest =>
    match backup_check getQueue flavors_by_zone flavor_id
        cpu_buffer memory_buffer volume_buffer qid with
    | .ok (q, true) => (some q, [qid])
    | _ =>
      let r := find_backup getQueue flavors_by_zone flavor_id
        cpu_buffer memory_buffer volume_buffer rest
      (r.1, qid :: r.2)

/-- Embeds `VolcMLPlatformClient._find_optimal_queue` (`client.py`): use the
default queue if it is vacant for the flavor under the provided buffers,
otherwise check each backup queue, falling back to the default queue when no
backup qualifies.  The remote `get_resource_queue` is abstracted as the
function argument `getQueue`.  On success the result also carries the list of
queue ids that were fetched from the service, in order (the default queue
first); the `flavor_id` isinstance check of the source is rendered vacuous by
typing (`flavor_id : String`). -/
def find_optimal_queue (getQueue : String → Except QueueErr GetResourceQueueResultModel)
    (default_qid flavor_id : String) (flavors_by_zone : FlavorsByZone)
    (backup_qids : List String)
    (cpu_buffer memory_buffer volume_buffer : Int) :
    Except QueueErr (GetResourceQueueResultModel × List String) :=
  if cpu_buffer < 0 ∨ memory_buffer < 0 ∨ volume_buffer < 0 then
    .error .negativeBuffer
  else
    match getQueue default_qid with
    | .error e => .error e
    | .ok default_q =>
      match is_queue_vacant flavors_by_zone flavor_id
          cpu_buffer memory_buffer volume_buffer default_q with
      | .error e => .error e
      | .ok true => .ok (default_q, [default_qid])
      | .ok false =>
        let r := find_backup getQueue flavors_by_zone flavor_id
          cpu_buffer memory_buffer volume_buffer backup_qids
        match r.1 with
        | some backup_q => .ok (backup_q, default_qid :: r.2)
        | none => .ok (default_q, default_qid :: r.2)

/-! ## Task lifecycle tracker (`task.py`, `VolcMLPlatformTask`) -/

/-- Embeds `_terminal_task_states` from `task.py`. -/
def terminal_task_states : List String :=
  ["Success", "SuccessHolding", "Failed", "FailedHolding",
   "Cancelled", "Killed", "Exception"]

/-- Embeds `_DEFAULT_TRACKING_INTERVAL = 10` (`task.py`).  Intervals are
rationals, covering both Python `int` and `float` arguments. -/
def DEFAULT_TRACKING_INTERVAL : ℚ := 10

/-- Embeds `_MIN_TRACKING_INTERVAL = 5` (`task.py`). -/
def MIN_TRACKING_INTERVAL : ℚ := 5

/-- Embeds `_MAX_TRACKING_INTERVAL = 300` (`task.py`). -/
def MAX_TRACKING_INTERVAL : ℚ := 300

/-- Embeds the `tracking_interval` resolution of `VolcMLPlatformTask.__init__`
(`task.py`): a numeric argument inside `[MIN, MAX]` is used as given, anything
else is replaced by `DEFAULT_TRACKING_INTERVAL` (with a warning).  A Python
argument that is not a number at all is also replaced by the default in the
source; the numeric case modelled here is the one the claims quantify over. -/
def resolve_tracking_interval (tracking_interval : ℚ) : ℚ :=
  if MIN_TRACKING_INTERVAL ≤ tracking_interval ∧
      tracking_interval ≤ MAX_TRACKING_INTERVAL then
    tracking_interval
  else
    DEFAULT_TRACKING_INTERVAL

/-- Modelled from the spec: the spec says the interval is "bounded to a sane
range, clamped otherwise", i.e. an out-of-range argument is clamped to the
nearer bound of `[MIN_TRACKING_INTERVAL, MAX_TRACKING_INTERVAL]`.  This
definition follows the spec's words, for comparison with
`resolve_tracking_interval`, which follows the source. -/
def spec_clamped_tracking_interval (tracking_interval : ℚ) : ℚ :=
  max MIN_TRACKING_INTERVAL (min MAX_TRACKING_INTERVAL tracking_interval)

/-- Embeds `GetCustomTaskResultModel` from `data/_receive.py`, the cached task
status refreshed by the tracker.  The four `Optional[datetime]` timestamp
fields are modelled as optional strings (their parsed value plays no role in
any claim). -/
structure GetCustomTaskResultModel where
  Id : String
  Name : String
  Description : String
  Tags : List String
  State : String
  CacheType : String
  ClusterId : String
  CreatorUserId : Int
  ResourceGroupId : String
  ResourceQueueId : String
  DiagInfo : String
  ExitCode : Int
  HasPermission : Bool
  CreateTime : Option String
  LaunchTime : Option String
  FinishTime : Option String
  UpdateTime : Option String
deriving DecidableEq

/-- Outcome of one `query_task` call inside the tracking loop of
`VolcMLPlatformTask._track`: either a fresh status, or an exception (which the
loop logs and swallows, keeping the cached status). -/
inductive PollResult where
  | ok (status : GetCustomTaskResultModel) : PollResult
  | queryError : PollResult
deriving DecidableEq

/-- Embeds the `while` loop of `VolcMLPlatformTask._track` (`task.py`): while
the cached state is not terminal, sleep, issue a status query, and on success
replace the cached status (under the lock); a failed query keeps the cached
status.  The infinite poll stream is cut to the finite list `polls` of
available query outcomes; the loop also stops when they run out.  Returns the
final cached status and the number of status queries issued. -/
def track_loop : List PollResult → GetCustomTaskResultModel →
    GetCustomTaskResultModel × Nat
  | polls, cur =>
    if cur.State ∈ terminal_task_states then
      (cur, 0)
    else
      match polls with
      | [] => (cur, 0)
      | p :: rest =>
        let next := match p with | .ok status => status | .queryError => cur
        let r := track_loop rest next
        (r.1, r.2 + 1)

/-! ## Remote calls (`_service.py`, `VolcMLPlatformService.call_api`) -/

/-- Embeds the `ACTIONS` tuple of `_service.py`, the registered API names. -/
def ACTIONS : List String :=
  ["CreateCustomTask", "GetCustomTask", "ListCustomTasks", "StopCustomTask",
   "GetContainerLogs", "DeleteCustomTask", "GetCustomTaskInstances",
   "GetResourceQueue", "ListResourceQueues", "GetMetrics", "ListImageRepos",
   "GetImageRepo", "ListMountPoints", "ListFlavorsV2",
   "GetUserVepfsFilesetPermission"]

/-- The provider `Error` dict of a response envelope, as read by
`CallVolcAPIError.__init__` with `error.get('Code', '')`,
`error.get('CodeN')`, `error.get('Message', '')`: each key may be absent. -/
structure ErrorObj where
  Code : Option String
  CodeN : Option Int
  Message : Option String
deriving DecidableEq

/-- Embeds the `CallVolcAPIError` exception of `_service.py`: carries the API
name, the provider error code, the numeric code and the message. -/
structure CallVolcAPIError where
  api : String
  code : String
  codeN : Option Int
  message : String
deriving DecidableEq

/-- `CallVolcAPIError.__init__`: defaults for absent `Code`/`Message` keys. -/
def mkCallVolcAPIError (api : String) (error : ErrorObj) : CallVolcAPIError :=
  { api := api
    code := error.Code.getD ""
    codeN := error.CodeN
    message := error.Message.getD "" }

/-- What the HTTP layer underneath `call_api` can produce: either some
exception (connection failure, timeout, JSON parsing error of `resp.json()`,
...) with its message, or a parsed response with a status code, the
`ResponseMetadata.Error` object (all-absent fields model a missing
`ResponseMetadata` or `Error` key, matching the `.get(..., {})` chain), and
the optional `Result` payload, kept abstract as a string. -/
inductive HttpResult where
  | raised (msg : String) : HttpResult
  | response (status_code : Int) (meta_error : ErrorObj)
      (result : Option String) : HttpResult

/-- Embeds `VolcMLPlatformService.call_api` (`_service.py`): an unregistered
API name raises a `ValueError` which the catch-all turns into a
`CallVolcAPIError` with code `Other`; any transport/parsing exception is
likewise wrapped with code `Other`; a non-200 response raises a
`CallVolcAPIError` built from the envelope's error object; a 200 response
without a `Result` key raises one with code `MissingResult`; otherwise the
`Result` payload is returned. -/
def call_api (api : String) (http : HttpResult) : Except CallVolcAPIError String :=
  if !(ACTIONS.contains api) then
    .error (mkCallVolcAPIError api
      ⟨some "Other", none, some ("Unregistered API " ++ api)⟩)
  else
    match http with
    | .raised msg =>
      .error (mkCallVolcAPIError api ⟨some "Other", none, some msg⟩)
    | .response status_code meta_error result =>
      if status_code ≠ 200 then
        .error (mkCallVolcAPIError api meta_error)
      else
        match result with
        | none =>
          .error (mkCallVolcAPIError api
            ⟨some "MissingResult", none,
             some "Successful response but missing key: Result"⟩)
        | some r => .ok r

/-! ## Exception-suppressing decorator (`client.py`, `handle_exceptions`) -/

/-- Embeds the `handle_exceptions` decorator of `client.py` applied to a
function `func` (in the source, `VolcMLPlatformClient.submit_task`, whose body
is abstracted here as an `Except`-returning function of its argument tuple).
The wrapper pops the `handle_exceptions` keyword (default `False`); when it is
`True` every exception is caught, logged and `None` returned, otherwise `func`
is called unchanged.  The result type `Except String (Option β)` reflects the
Python return: a normal value, `None`, or a propagated exception. -/
def handle_exceptions_wrapper {α β : Type} (func : α → Except String β)
    (handle : Bool) (a : α) : Except String (Option β) :=
  if handle then
    match func a with
    | .ok y => .ok (some y)
    | .error _ => .ok none
  else
    match func a with
    | .ok y => .ok (some y)
    | .error e => .error e

/-! ## Concrete sample data, used by the witness theorems -/

/-- A sample GPU flavor (shape of the requested workload). -/
def sampleFlavor : FlavorModel :=
  { Name := "g1-large", Id := "ml.g1.large", Type_ := "GPU型",
    Deprecated := false, SupportVolumeTypeId := "ssd",
    vCPU := 4, Memory := 32, GPUType := "A100", GPUMemory := 80, GPUNum := 1,
    MaxSlicesPerGPU := 1, EniCount := 1, NetQuota := "10G" }

/-- A sample high-performance-compute GPU flavor. -/
def hpcFlavor : FlavorModel :=
  { Name := "hpc-large", Id := "ml.hpcpni2l.28xlarge", Type_ := "高性能计算GPU型",
    Deprecated := false, SupportVolumeTypeId := "ssd",
    vCPU := 4, Memory := 32, GPUType := "A800", GPUMemory := 80, GPUNum := 1,
    MaxSlicesPerGPU := 1, EniCount := 1, NetQuota := "100G" }

/-- A sample flavors-by-zone table offering `sampleFlavor` in zone `zone-a`. -/
def sampleFbz : FlavorsByZone :=
  [("zone-a", [("ml.g1.large", sampleFlavor), ("ml.hpc.large", hpcFlavor)])]

/-- A queue in `zone-a` with plenty of vacant capacity for `sampleFlavor`. -/
def vacantQueue : GetResourceQueueResultModel :=
  { Id := "q-backup", Name := "backup", Description := "", ClusterId := "c-1",
    ZoneId := "zone-a", DevZoneId := "zone-a", State := "Running",
    Role := "User", ResourceGroupId := "rg-1", CapableFlavorTypes := "GPU型",
    Shareable := false, SupportMGPU := false,
    QuotaCapability := ⟨100, 1000, [("A100", 8)], 0⟩,
    QuotaAllocated := ⟨10, 100, [("A100", 2)], 0⟩,
    VolumeCapability := [⟨"vol-1", 20, "zone-a", "ssd"⟩],
    VolumeAllocated := [⟨"vol-1", 3, "zone-a", "ssd"⟩] }

/-- A queue in `zone-a` whose total capacity fits `sampleFlavor` but whose
vacant CPU (100 - 98 = 2 < 4) does not. -/
def fullQueue : GetResourceQueueResultModel :=
  { vacantQueue with
    Id := "q-default"
    Name := "default"
    QuotaAllocated := ⟨98, 100, [("A100", 2)], 0⟩ }

/-- A queue sitting in a zone absent from `sampleFbz`, so that evaluating it
raises the `KeyError` of `flavors_by_zone[q.ZoneId]`. -/
def strayQueue : GetResourceQueueResultModel :=
  { vacantQueue with Id := "q-stray", Name := "stray", ZoneId := "zone-z" }

/-- A sample service: knows three queues, raises on any other id. -/
def sampleGetQueue (qid : String) : Except QueueErr GetResourceQueueResultModel :=
  if qid == "q-default" then .ok fullQueue
  else if qid == "q-backup" then .ok vacantQueue
  else if qid == "q-stray" then .ok strayQueue
  else .error (.serviceError "Resource queue does not exist")

/-- A sample terminal task status for the tracker. -/
def doneStatus : GetCustomTaskResultModel :=
  { Id := "t-20240821181412-mlfxf", Name := "demo", Description := "",
    Tags := [], State := "Success", CacheType := "none", ClusterId := "c-1",
    CreatorUserId := 42, ResourceGroupId := "rg-1", ResourceQueueId := "q-default",
    DiagInfo := "", ExitCode := 0, HasPermission := true,
    CreateTime := some "2024-08-21T18:14:12Z", LaunchTime := none,
    FinishTime := none, UpdateTime := none }

/-- A sample non-terminal task status. -/
def runningStatus : GetCustomTaskResultModel :=
  { doneStatus with State := "Running" }

/-- A sample fallible submission body, standing in for `submit_task` under the
`handle_exceptions` decorator. -/
def sampleSubmission (ok : Bool) : Except String Nat :=
  if ok then .ok 7 else .error "boom"

/-! ## Helper lemmas about the backup loop -/

/-- If no backup in the list evaluates to vacant (each either raises or is
non-vacant), the backup loop finds nothing. -/
theorem find_backup_none
    (getQueue : String → Except QueueErr GetResourceQueueResultModel)
    (fbz : FlavorsByZone) (fid : String) (cb mb vb : Int)
    (backups : List String)
    (h : ∀ qid ∈ backups,
      (backup_check getQueue fbz fid cb mb vb qid).map Prod.snd ≠ .ok true) :
    (find_backup getQueue fbz fid cb mb vb backups).1 = none := by
  induction backups with
  | nil => simp [find_backup]
  | cons qid rest ih =>
    have hqid := h qid (List.mem_cons_self qid rest)
    have hrest : ∀ q ∈ rest,
        (backup_check getQueue fbz fid cb mb vb q).map Prod.snd ≠ .ok true :=
      fun q hq => h q (List.mem_cons_of_mem qid hq)
    rw [find_backup]
    match hcheck : backup_check getQueue fbz fid cb mb vb qid with
    | .ok (q, true) =>
      exact absurd (by rw [hcheck]; rfl) hqid
    | .ok (q, false) =>
      simpa using ih hrest
    | .error e =>
      simpa using ih hrest

/-- If every backup before `bqid` fails to evaluate to vacant and `bqid`
evaluates to vacant with queue `bq`, the backup loop returns `bq`. -/
theorem find_backup_first
    (getQueue : String → Except QueueErr GetResourceQueueResultModel)
    (fbz : FlavorsByZone) (fid : String) (cb mb vb : Int)
    (pre rest : List String) (bqid : String)
    (bq : GetResourceQueueResultModel)
    (hpre : ∀ qid ∈ pre,
      (backup_check getQueue fbz fid cb mb vb qid).map Prod.snd ≠ .ok true)
    (hb : backup_check getQueue fbz fid cb mb vb bqid = .ok (bq, true)) :
    (find_backup getQueue fbz fid cb mb vb (pre ++ bqid :: rest)).1 = some bq := by
  induction pre with
  | nil =>
    simp only [List.nil_append]
    rw [find_backup, hb]
  | cons qid pre' ih =>
    have hqid := hpre qid (List.mem_cons_self qid pre')
    have hpre' : ∀ q ∈ pre',
        (backup_check getQueue fbz fid cb mb vb q).map Prod.snd ≠ .ok true :=
      fun q hq => hpre q (List.mem_cons_of_mem qid hq)
    rw [List.cons_append, find_backup]
    match hcheck : backup_check getQueue fbz fid cb mb vb qid with
    | .ok (q, true) =>
      exact absurd (by rw [hcheck]; rfl) hqid
    | .ok (q, false) =>
      simpa using ih hpre'
    | .error e =>
      simpa using ih hpre'

/-- When the buffers pass the guard, the default queue is fetched and its
vacancy check returns `false`, `find_optimal_queue` reduces to the backup
loop, falling back to the default queue. -/
theorem find_optimal_queue_loop_eq
    (gq : String → Except QueueErr GetResourceQueueResultModel)
    (fbz : FlavorsByZone) (dqid fid : String) (backups : List String)
    (cb mb vb : Int) (dq : GetResourceQueueResultModel)
    (hg : ¬(cb < 0 ∨ mb < 0 ∨ vb < 0))
    (hdq : gq dqid = .ok dq)
    (hdv : is_queue_vacant fbz fid cb mb vb dq = .ok false) :
    find_optimal_queue gq dqid fid fbz backups cb mb vb =
      match (find_backup gq fbz fid cb mb vb backups).1 with
      | some bq => .ok (bq, dqid :: (find_backup gq fbz fid cb mb vb backups).2)
      | none => .ok (dq, dqid :: (find_backup gq fbz fid cb mb vb backups).2) := by
  rw [find_optimal_queue, if_neg hg, hdq]
  simp only [hdv]

/-! ## The claims -/

/-- Claim C1: for every queue and flavor (as the matcher uses them, i.e. after
the `fit_flavor` guard has passed), the vacancy check `is_vacant_for` holds
exactly when the headroom — total capacity minus already-allocated capacity,
minus the requested amount and the caller-supplied safety buffer — is
non-negative in every resource dimension: CPU, memory, the relevant GPU type
(for a 'GPU型' flavor; no GPU buffer exists), and free storage volume count
(where nothing beyond the buffer is requested). -/
theorem is_vacant_for_iff_headroom_nonneg
    (q : GetResourceQueueResultModel) (f : FlavorModel) (cb mb vb : Int)
    (hfit : q.fit_flavor f = true) :
    q.is_vacant_for f cb mb vb = true ↔
      (0 ≤ q.total_cpu - q.allocated_cpu - f.vCPU - cb ∧
       0 ≤ q.total_memory - q.allocated_memory - f.Memory - mb ∧
       (f.Type_ = "GPU型" →
         0 ≤ q.total_gpu f.GPUType - q.allocated_gpu f.GPUType - f.GPUNum) ∧
       0 ≤ q.vacant_volume - vb) := by
  have hT : (f.Type_ == "高性能计算GPU型") = false := by
    cases h : f.Type_ == "高性能计算GPU型" with
    | false => rfl
    | true =>
      exfalso
      rw [GetResourceQueueResultModel.fit_flavor, if_pos h] at hfit
      exact Bool.false_ne_true hfit
  rw [GetResourceQueueResultModel.is_vacant_for, if_neg (by simp [hT])]
  by_cases hG : f.Type_ = "GPU型"
  · rw [if_pos (by simp [hG])]
    simp only [Bool.and_eq_true, decide_eq_true_eq, ge_iff_le, hG,
      GetResourceQueueResultModel.vacant_gpu, GetResourceQueueResultModel.vacant_cpu,
      GetResourceQueueResultModel.vacant_memory, forall_const]
    omega
  · rw [if_neg (by simp [hG])]
    simp only [Bool.true_and, Bool.and_eq_true, decide_eq_true_eq, ge_iff_le, hG,
      GetResourceQueueResultModel.vacant_cpu, GetResourceQueueResultModel.vacant_memory,
      false_implies, true_and]
    omega

/-- Witness for C1 at a concrete queue, flavor and buffers. -/
theorem is_vacant_for_iff_headroom_nonneg_witness :
    vacantQueue.is_vacant_for sampleFlavor 2 3 5 = true ↔
      (0 ≤ vacantQueue.total_cpu - vacantQueue.allocated_cpu - sampleFlavor.vCPU - 2 ∧
       0 ≤ vacantQueue.total_memory - vacantQueue.allocated_memory
          - sampleFlavor.Memory - 3 ∧
       (sampleFlavor.Type_ = "GPU型" →
         0 ≤ vacantQueue.total_gpu sampleFlavor.GPUType
            - vacantQueue.allocated_gpu sampleFlavor.GPUType - sampleFlavor.GPUNum) ∧
       0 ≤ vacantQueue.vacant_volume - 5) :=
  is_vacant_for_iff_headroom_nonneg vacantQueue sampleFlavor 2 3 5 (by decide)

/-- Claim C2: when the default queue is fetched and found non-vacant, and no
backup queue evaluates to vacant (each backup either raises or is found
non-vacant), `find_optimal_queue` returns the default queue. -/
theorem find_optimal_queue_no_vacancy_returns_default
    (gq : String → Except QueueErr GetResourceQueueResultModel)
    (fbz : FlavorsByZone) (dqid fid : String) (backups : List String)
    (cb mb vb : Int) (dq : GetResourceQueueResultModel)
    (hcb : 0 ≤ cb) (hmb : 0 ≤ mb) (hvb : 0 ≤ vb)
    (hdq : gq dqid = .ok dq)
    (hdv : is_queue_vacant fbz fid cb mb vb dq = .ok false)
    (hback : ∀ qid ∈ backups,
      (backup_check gq fbz fid cb mb vb qid).map Prod.snd ≠ .ok true) :
    (find_optimal_queue gq dqid fid fbz backups cb mb vb).map Prod.fst = .ok dq := by
  have hnone := find_backup_none gq fbz fid cb mb vb backups hback
  rw [find_optimal_queue_loop_eq gq fbz dqid fid backups cb mb vb dq (by omega) hdq hdv]
  rw [hnone]
  rfl

/-- Witness for C2: the default is full, the only backup id raises. -/
theorem find_optimal_queue_no_vacancy_returns_default_witness :
    (find_optimal_queue sampleGetQueue "q-default" "ml.g1.large" sampleFbz
      ["q-bad"] 0 0 5).map Prod.fst = .ok fullQueue :=
  find_optimal_queue_no_vacancy_returns_default sampleGetQueue sampleFbz
    "q-default" "ml.g1.large" ["q-bad"] 0 0 5 fullQueue
    (by decide) (by decide) (by decide) (by decide) (by decide) (by decide)

/-- Claim C3: when the default queue is fetched and found non-vacant and the
backup list splits as `pre ++ bqid :: rest` where no queue of `pre` evaluates
to vacant and `bqid` evaluates to vacant with queue `bq`, `find_optimal_queue`
returns `bq` — the first backup in list order with sufficient headroom. -/
theorem find_optimal_queue_returns_first_vacant_backup
    (gq : String → Except QueueErr GetResourceQueueResultModel)
    (fbz : FlavorsByZone) (dqid fid : String) (pre rest : List String)
    (bqid : String) (cb mb vb : Int) (dq bq : GetResourceQueueResultModel)
    (hcb : 0 ≤ cb) (hmb : 0 ≤ mb) (hvb : 0 ≤ vb)
    (hdq : gq dqid = .ok dq)
    (hdv : is_queue_vacant fbz fid cb mb vb dq = .ok false)
    (hpre : ∀ qid ∈ pre,
      (backup_check gq fbz fid cb mb vb qid).map Prod.snd ≠ .ok true)
    (hb : backup_check gq fbz fid cb mb vb bqid = .ok (bq, true)) :
    (find_optimal_queue gq dqid fid fbz (pre ++ bqid :: rest) cb mb vb).map Prod.fst
      = .ok bq := by
  have hsome := find_backup_first gq fbz fid cb mb vb pre rest bqid bq hpre hb
  rw [find_optimal_queue_loop_eq gq fbz dqid fid _ cb mb vb dq (by omega) hdq hdv]
  rw [hsome]
  rfl

/-- Witness for C3: the default is full, the first backup id raises, the
second backup is vacant and gets returned. -/
theorem find_optimal_queue_returns_first_vacant_backup_witness :
    (find_optimal_queue sampleGetQueue "q-default" "ml.g1.large" sampleFbz
      (["q-bad"] ++ "q-backup" :: []) 0 0 5).map Prod.fst = .ok vacantQueue :=
  find_optimal_queue_returns_first_vacant_backup sampleGetQueue sampleFbz
    "q-default" "ml.g1.large" ["q-bad"] [] "q-backup" 0 0 5 fullQueue vacantQueue
    (by decide) (by decide) (by decide) (by decide) (by decide) (by decide) (by decide)

/-- Claim C4: when the default queue is fetched and found vacant,
`find_optimal_queue` returns it, whatever the backup list is, and the list of
consulted queue ids is exactly `[default_qid]` — no backup queue is fetched. -/
theorem find_optimal_queue_vacant_default_short_circuits
    (gq : String → Except QueueErr GetResourceQueueResultModel)
    (fbz : FlavorsByZone) (dqid fid : String) (backups : List String)
    (cb mb vb : Int) (dq : GetResourceQueueResultModel)
    (hcb : 0 ≤ cb) (hmb : 0 ≤ mb) (hvb : 0 ≤ vb)
    (hdq : gq dqid = .ok dq)
    (hdv : is_queue_vacant fbz fid cb mb vb dq = .ok true) :
    find_optimal_queue gq dqid fid fbz backups cb mb vb = .ok (dq, [dqid]) := by
  rw [find_optimal_queue, if_neg (by omega), hdq]
  simp only [hdv]

/-- Witness for C4: a vacant default queue wins over a listed backup. -/
theorem find_optimal_queue_vacant_default_short_circuits_witness :
    find_optimal_queue sampleGetQueue "q-backup" "ml.g1.large" sampleFbz
      ["q-default"] 0 0 5 = .ok (vacantQueue, ["q-backup"]) :=
  find_optimal_queue_vacant_default_short_circuits sampleGetQueue sampleFbz
    "q-backup" "ml.g1.large" ["q-default"] 0 0 5 vacantQueue
    (by decide) (by decide) (by decide) (by decide) (by decide)

/-- Claim C5: a malformed or incompatible pool/workload pairing (unknown zone,
flavor not in zone, deprecated flavor, flavor exceeding total capacity — any
`QueueErr` raised by the per-queue evaluation) makes `find_optimal_queue`
raise immediately when it occurs for the default queue, whatever the backups;
the same condition on a backup queue only makes the loop skip that backup and
continue with the remaining ones, leaving the selected queue unchanged. -/
theorem find_optimal_queue_error_handling
    (gq : String → Except QueueErr GetResourceQueueResultModel)
    (fbz : FlavorsByZone) (dqid fid b : String) (rest : List String)
    (cb mb vb : Int) (dq : GetResourceQueueResultModel) (e e' : QueueErr)
    (hcb : 0 ≤ cb) (hmb : 0 ≤ mb) (hvb : 0 ≤ vb)
    (hdq : gq dqid = .ok dq) :
    (is_queue_vacant fbz fid cb mb vb dq = .error e →
      ∀ backups, find_optimal_queue gq dqid fid fbz backups cb mb vb = .error e)
    ∧ (is_queue_vacant fbz fid cb mb vb dq = .ok false →
       backup_check gq fbz fid cb mb vb b = .error e' →
       (find_optimal_queue gq dqid fid fbz (b :: rest) cb mb vb).map Prod.fst
         = (find_optimal_queue gq dqid fid fbz rest cb mb vb).map Prod.fst) := by
  constructor
  · intro herr backups
    rw [find_optimal_queue, if_neg (by omega), hdq]
    simp only [herr]
  · intro hdv hberr
    rw [find_optimal_queue_loop_eq gq fbz dqid fid _ cb mb vb dq (by omega) hdq hdv,
        find_optimal_queue_loop_eq gq fbz dqid fid rest cb mb vb dq (by omega) hdq hdv]
    rw [find_backup, hberr]
    cases hfb : (find_backup gq fbz fid cb mb vb rest).1 <;> simp [hfb, Except.map]

/-- Witness for C5: a default queue in an unknown zone raises the zone
`KeyError`; the same kind of failure on a backup id is skipped and the run
equals the run without that backup. -/
theorem find_optimal_queue_error_handling_witness :
    find_optimal_queue sampleGetQueue "q-stray" "ml.g1.large" sampleFbz
      ["q-backup"] 0 0 5 = .error (.zoneKeyError "zone-z") ∧
    (find_optimal_queue sampleGetQueue "q-default" "ml.g1.large" sampleFbz
      ("q-bad" :: ["q-backup"]) 0 0 5).map Prod.fst =
      (find_optimal_queue sampleGetQueue "q-default" "ml.g1.large" sampleFbz
        ["q-backup"] 0 0 5).map Prod.fst :=
  ⟨(find_optimal_queue_error_handling sampleGetQueue sampleFbz "q-stray"
      "ml.g1.large" "q-bad" [] 0 0 5 strayQueue (.zoneKeyError "zone-z")
      QueueErr.negativeBuffer (by decide) (by decide) (by decide)
      (by decide)).1 (by decide) ["q-backup"],
   (find_optimal_queue_error_handling sampleGetQueue sampleFbz "q-default"
      "ml.g1.large" "q-bad" ["q-backup"] 0 0 5 fullQueue QueueErr.negativeBuffer
      (QueueErr.serviceError "Resource queue does not exist") (by decide)
      (by decide) (by decide) (by decide)).2 (by decide) (by decide)⟩

/-- Counterexample to claim C6: at `tracking_interval = 400` the source keeps
`DEFAULT_TRACKING_INTERVAL = 10`, not the clamped value `300` the claim
asserts. -/
theorem tracking_interval_clamping_counterexample :
    resolve_tracking_interval 400 = DEFAULT_TRACKING_INTERVAL ∧
    spec_clamped_tracking_interval 400 = MAX_TRACKING_INTERVAL ∧
    resolve_tracking_interval 400 ≠ spec_clamped_tracking_interval 400 := by
  refine ⟨?_, ?_, ?_⟩ <;> decide

/-- Claim C6 as amended: the interval actually used by the tracker equals the
argument when it lies within `[MIN_TRACKING_INTERVAL, MAX_TRACKING_INTERVAL]`
= [5, 300], and is replaced by the default interval of 10 seconds (not
clamped) otherwise. -/
theorem resolve_tracking_interval_in_range_or_default (t : ℚ) :
    (MIN_TRACKING_INTERVAL ≤ t ∧ t ≤ MAX_TRACKING_INTERVAL →
      resolve_tracking_interval t = t) ∧
    ((t < MIN_TRACKING_INTERVAL ∨ MAX_TRACKING_INTERVAL < t) →
      resolve_tracking_interval t = DEFAULT_TRACKING_INTERVAL) := by
  constructor
  · intro h
    rw [resolve_tracking_interval, if_pos h]
  · intro h
    rw [resolve_tracking_interval, if_neg]
    rcases h with h | h
    · exact fun hc => absurd hc.1 (not_le.mpr h)
    · exact fun hc => absurd hc.2 (not_le.mpr h)

/-- Witness for the amended C6 at an in-range and an out-of-range argument. -/
theorem resolve_tracking_interval_in_range_or_default_witness :
    resolve_tracking_interval 10 = 10 ∧
    resolve_tracking_interval 400 = DEFAULT_TRACKING_INTERVAL :=
  ⟨(resolve_tracking_interval_in_range_or_default 10).1 (by decide),
   (resolve_tracking_interval_in_range_or_default 400).2 (by decide)⟩

/-- Claim C7: once the cached task state is in the terminal set, the tracking
loop issues no further status query (the query count is 0) and the cached
status is never replaced, whatever poll outcomes would have been available —
terminal-state detection is stable. -/
theorem track_loop_stable_at_terminal (cur : GetCustomTaskResultModel)
    (h : cur.State ∈ terminal_task_states) (polls : List PollResult) :
    track_loop polls cur = (cur, 0) := by
  simp [track_loop.eq_def, h]

/-- Witness for C7: a finished task is not polled again, even with fresh
poll outcomes available. -/
theorem track_loop_stable_at_terminal_witness :
    track_loop [PollResult.ok runningStatus, PollResult.queryError] doneStatus
      = (doneStatus, 0) :=
  track_loop_stable_at_terminal doneStatus (by decide)
    [PollResult.ok runningStatus, PollResult.queryError]

/-- Claim C8: every failure of `call_api` is the single error kind
`CallVolcAPIError` (the result type allows no other), every such error carries
the API name, and for a registered API: a transport/parsing exception maps to
code `Other` with its message, a non-200 response maps to the envelope's
error object, a 200 response missing the `Result` field maps to code
`MissingResult`, and a 200 response with a `Result` succeeds. -/
theorem call_api_error_normalization (api : String) (http : HttpResult) :
    (∀ e, call_api api http = .error e → e.api = api) ∧
    (api ∈ ACTIONS →
      (∀ msg, call_api api (.raised msg) = .error ⟨api, "Other", none, msg⟩) ∧
      (∀ sc me r, sc ≠ 200 →
        call_api api (.response sc me r) = .error (mkCallVolcAPIError api me)) ∧
      (∀ me, call_api api (.response 200 me none) =
        .error ⟨api, "MissingResult", none,
          "Successful response but missing key: Result"⟩) ∧
      (∀ me r, call_api api (.response 200 me (some r)) = .ok r)) := by
  constructor
  · intro e he
    unfold call_api at he
    split at he
    · injection he with h
      subst h
      rfl
    · split at he
      · injection he with h
        subst h
        rfl
      · split at he
        · injection he with h
          subst h
          rfl
        · split at he
          · injection he with h
            subst h
            rfl
          · exact absurd he (by simp)
  · intro hmem
    refine ⟨?_, ?_, ?_, ?_⟩
    · intro msg
      simp [call_api, hmem, mkCallVolcAPIError]
    · intro sc me r hsc
      simp [call_api, hmem, hsc]
    · intro me
      simp [call_api, hmem, mkCallVolcAPIError]
    · intro me r
      simp [call_api, hmem]

/-- Witness for C8: the four outcomes at the registered API `GetCustomTask`. -/
theorem call_api_error_normalization_witness :
    call_api "GetCustomTask" (.raised "timeout")
      = .error ⟨"GetCustomTask", "Other", none, "timeout"⟩ ∧
    call_api "GetCustomTask"
        (.response 403 ⟨some "AccessDenied", none, some "denied"⟩ none)
      = .error (mkCallVolcAPIError "GetCustomTask"
          ⟨some "AccessDenied", none, some "denied"⟩) ∧
    call_api "GetCustomTask" (.response 200 ⟨none, none, none⟩ none)
      = .error ⟨"GetCustomTask", "MissingResult", none,
          "Successful response but missing key: Result"⟩ ∧
    call_api "GetCustomTask" (.response 200 ⟨none, none, none⟩ (some "payload"))
      = .ok "payload" :=
  ⟨((call_api_error_normalization "GetCustomTask" (.raised "timeout")).2
      (by decide)).1 "timeout",
   ((call_api_error_normalization "GetCustomTask" (.raised "")).2
      (by decide)).2.1 403 ⟨some "AccessDenied", none, some "denied"⟩ none (by decide),
   ((call_api_error_normalization "GetCustomTask" (.raised "")).2
      (by decide)).2.2.1 ⟨none, none, none⟩,
   ((call_api_error_normalization "GetCustomTask" (.raised "")).2
      (by decide)).2.2.2 ⟨none, none, none⟩ "payload"⟩

/-- Claim C9: with the `handle_exceptions` flag set, the wrapped entry point
never propagates an exception — a failing body is logged and yields the empty
result `none`, a succeeding body yields its value; with the flag unset (its
default), failures propagate unchanged and successes are returned as-is. -/
theorem handle_exceptions_wrapper_behavior {α β : Type}
    (func : α → Except String β) (a : α) :
    (∀ e, handle_exceptions_wrapper func true a ≠ .error e) ∧
    (∀ e, func a = .error e → handle_exceptions_wrapper func true a = .ok none) ∧
    (∀ y, func a = .ok y → handle_exceptions_wrapper func true a = .ok (some y)) ∧
    (∀ e, func a = .error e → handle_exceptions_wrapper func false a = .error e) ∧
    (∀ y, func a = .ok y → handle_exceptions_wrapper func false a = .ok (some y)) := by
  refine ⟨?_, ?_, ?_, ?_, ?_⟩
  · intro e
    unfold handle_exceptions_wrapper
    cases hf : func a <;> simp
  · intro e hf
    simp [handle_exceptions_wrapper, hf]
  · intro y hf
    simp [handle_exceptions_wrapper, hf]
  · intro e hf
    simp [handle_exceptions_wrapper, hf]
  · intro y hf
    simp [handle_exceptions_wrapper, hf]

/-- Witness for C9 on a concrete fallible body. -/
theorem handle_exceptions_wrapper_behavior_witness :
    handle_exceptions_wrapper sampleSubmission true false = .ok none ∧
    handle_exceptions_wrapper sampleSubmission true true = .ok (some 7) ∧
    handle_exceptions_wrapper sampleSubmission false false = .error "boom" :=
  ⟨(handle_exceptions_wrapper_behavior sampleSubmission false).2.1 "boom" (by decide),
   (handle_exceptions_wrapper_behavior sampleSubmission true).2.2.1 7 (by decide),
   (handle_exceptions_wrapper_behavior sampleSubmission false).2.2.2.1 "boom" (by decide)⟩

/-- Claim C10: a flavor whose type is '高性能计算GPU型' is rejected by both
`fit_flavor` and `is_vacant_for`, whatever the queue's capacity and
allocation and whatever the buffers. -/
theorem hpc_gpu_flavor_never_fits
    (q : GetResourceQueueResultModel) (f : FlavorModel) (cb mb vb : Int)
    (h : f.Type_ = "高性能计算GPU型") :
    q.fit_flavor f = false ∧ q.is_vacant_for f cb mb vb = false := by
  refine ⟨?_, ?_⟩
  · rw [GetResourceQueueResultModel.fit_flavor, if_pos (by simp [h])]
  · rw [GetResourceQueueResultModel.is_vacant_for, if_pos (by simp [h])]

/-- Witness for C10: the HPC flavor fails both checks even in the roomy
sample queue. -/
theorem hpc_gpu_flavor_never_fits_witness :
    vacantQueue.fit_flavor hpcFlavor = false ∧
    vacantQueue.is_vacant_for hpcFlavor 0 0 5 = false :=
  hpc_gpu_flavor_never_fits vacantQueue hpcFlavor 0 0 5 (by decide)

end VolcengineKit
